import Mathlib

/-!
Shallow embedding of the generation-versioned slot-map object store of
`git-odb` (`src/git-odb/src/store/general/mod.rs`): the immutable snapshot
`SlotMapIndex` with its `state_id` fingerprint, the `SlotIndexMarker`,
`Store` construction (`Store::at`), the load/refresh dispatch
(`load_next_indices`), disk consolidation (`consolidate_with_disk_state`),
pack-index lookup (`IndexLookup::lookup`) and the handle accounting
protocol. Machine integers are modelled as `Nat` with explicit reduction
modulo `2 ^ 64` where `usize` arithmetic can wrap.
-/

namespace GitOdb

/-- The modulus of `usize` arithmetic on 64-bit targets; products that may
overflow are reduced modulo this value, matching release-mode wrapping. -/
def USIZE : Nat := 2 ^ 64

/-- Object identifiers (`git_hash::oid`) are opaque to this subsystem. -/
abbrev Oid := Nat

/-- Filesystem paths (`std::path::PathBuf`) are opaque to this subsystem. -/
abbrev Path := String

/-- A loose object database (`crate::loose::Store`), an external capability
identified here by its objects directory. -/
structure LooseStore where
  path : Path
deriving DecidableEq

/-- `SlotMapIndex`: one observation of an immutable snapshot. `self_ptr`
models `Arc::as_ptr(self)` and `loose_dbs_ptr` models
`Arc::as_ptr(&self.loose_dbs)`, the allocation addresses that take part in
the fingerprint; `next_index_to_load` and `loaded_indices` are the values,
at observation time, of the atomic counters shared by reference across all
snapshot instances of one generation. `generation` is a `u8` field. -/
structure SlotMapIndex where
  slot_indices : List Nat
  generation : Nat
  next_index_to_load : Nat
  loaded_indices : Nat
  loose_dbs : List LooseStore
  self_ptr : Nat
  loose_dbs_ptr : Nat
deriving DecidableEq

/-- `SlotMapIndex::state_id`: the source computes
`(Arc::as_ptr(&self.loose_dbs) as usize ^ Arc::as_ptr(self) as usize) *
(self.loaded_indices.load(SeqCst) + 1)`; the multiplication is `usize`
arithmetic, hence the reduction modulo `USIZE`. -/
def SlotMapIndex.state_id (s : SlotMapIndex) : Nat :=
  ((s.loose_dbs_ptr ^^^ s.self_ptr) * (s.loaded_indices + 1)) % USIZE

/-- `SlotIndexMarker`: the cheap fingerprint of what a consumer last saw;
`generation` is a `u8` field, `state_id` a `usize`. -/
structure SlotIndexMarker where
  generation : Nat
  state_id : Nat
deriving DecidableEq

/-- The `From` conversion producing a marker from a snapshot. -/
def SlotIndexMarker.ofIndex (v : SlotMapIndex) : SlotIndexMarker :=
  { generation := v.generation, state_id := v.state_id }

/-- `IndexId`: an id referring to an index file or multipack index file. -/
abbrev IndexId := Nat

/-- `PackId`: which pack, namespaced by indexing mechanism. -/
structure PackId where
  index : IndexId
  multipack_index : Option IndexId
deriving DecidableEq

/-- A pack index file (`git_pack::index::File`), consumed as a capability
to look an object id up and obtain its position within the pack. -/
structure PackIndexFile where
  lookup : Oid → Option Nat

/-- A pack data file (`git_pack::data::File`) is opaque here; only the
identity of the cached `Arc` in a data slot matters. -/
abbrev PackDataFile := Nat

/-- `SingleOrMultiIndex`: a single pack index with its lazily loaded data
file, or a multi-pack index (whose file type is the `()` placeholder in the
source) with one optional data file per contained pack. -/
inductive SingleOrMultiIndex where
  | Single (index : PackIndexFile) (data : Option PackDataFile)
  | Multi (index : Unit) (data : List (Option PackDataFile))

/-- `IndexLookup`: a loaded index together with its slot id. -/
structure IndexLookup where
  file : SingleOrMultiIndex
  id : IndexId

/-- `IndexForObjectInPack`: pack id plus the object position in the pack. -/
structure IndexForObjectInPack where
  pack_id : PackId
  object_index_in_pack : Nat
deriving DecidableEq

/-- Result of `IndexLookup::lookup`: `found r slot` models
`Some((r, &mut data_slot))` where `slot` is the current content of the
pack-data slot handed back by mutable reference (the operation never loads
pack data, it only exposes the slot); `notFound` models `None`;
`unimplementedMulti` is the `todo!()` on the `Multi` arm. -/
inductive LookupResult where
  | found (r : IndexForObjectInPack) (slot : Option PackDataFile)
  | notFound
  | unimplementedMulti
deriving DecidableEq

/-- `IndexLookup::lookup(object_id)`: on the `Single` variant, delegate to
the pack index and map a hit to `IndexForObjectInPack` with
`PackId { index: self.id, multipack_index: None }`, handing back the data
slot untouched. -/
def IndexLookup.lookup (self : IndexLookup) (object_id : Oid) : LookupResult :=
  match self.file with
  | .Single index data =>
    match index.lookup object_id with
    | some object_index_in_pack =>
      .found { pack_id := { index := self.id, multipack_index := none }
               object_index_in_pack := object_index_in_pack } data
    | none => .notFound
  | .Multi _ _ => .unimplementedMulti

/-- The kind of `io::Error` values produced in this file; the source only
builds `ErrorKind::Other` (a `NotADirectory` placeholder, per its TODO). -/
inductive IoErrorKind where
  | Other
deriving DecidableEq

/-- An `std::io::Error` observation: its kind and message. -/
structure IoError where
  kind : IoErrorKind
  msg : String
deriving DecidableEq

/-- `Store`: the mutex-guarded objects directory `path`, the `ArcSwap`ped
current snapshot `index`, and the two atomic handle counters. -/
structure Store where
  path : Path
  index : SlotMapIndex
  num_handles_stable : Nat
  num_handles_unstable : Nat
deriving DecidableEq

/-- `SlotMapIndex::default()`: empty slot indices, generation 0, zeroed
shared counters, empty loose-database list. The addresses of the two fresh
`Arc` allocations are parameters of the model. -/
def SlotMapIndex.mkDefault (self_ptr loose_dbs_ptr : Nat) : SlotMapIndex :=
  { slot_indices := []
    generation := 0
    next_index_to_load := 0
    loaded_indices := 0
    loose_dbs := []
    self_ptr := self_ptr
    loose_dbs_ptr := loose_dbs_ptr }

/-- `Store::at(objects_dir)`: the only filesystem interaction is the
`objects_dir.is_dir()` check, whose outcome is the `is_dir` parameter; on
failure an `ErrorKind::Other` error is returned, on success a store whose
snapshot is `SlotMapIndex::default()` (fresh allocation addresses are the
remaining parameters). -/
def Store.at (is_dir : Bool) (objects_dir : Path)
    (self_ptr loose_dbs_ptr : Nat) : Except IoError Store :=
  if !is_dir then
    .error { kind := .Other, msg := objects_dir ++ " was not a directory" }
  else
    .ok { path := objects_dir
          index := SlotMapIndex.mkDefault self_ptr loose_dbs_ptr
          num_handles_stable := 0
          num_handles_unstable := 0 }

/-- `RefreshMode`: how to behave when all known indices are loaded. -/
inductive RefreshMode where
  | AfterAllIndicesLoaded
  | Never
deriving DecidableEq

/-- The dispatch decision of `Store::load_next_indices`:
`consolidate seen` is the tail call `self.consolidate_with_disk_state(seen)`;
`replace` stands for building `Outcome::Replace` from the live snapshot;
`noMoreIndices` is `Outcome::NoMoreIndices`; `refresh` is the fresh
directory re-scan taken under `RefreshMode::AfterAllIndicesLoaded`. -/
inductive LoadStep where
  | consolidate (seen : Nat)
  | replace
  | noMoreIndices
  | refresh
deriving DecidableEq

/-- Modelled from the spec: the marker dispatch of
`Store::load_next_indices` past the cold-start branch is missing from the
source (its body is a commented-out match followed by `todo!()`); this
definition follows the spec wording, which coincides with that commented
block: a marker of a different generation yields a replace; same generation
and same `state_id` yields no-more-indices under `Never` and a fresh
directory re-scan under `AfterAllIndicesLoaded`; same generation with a
different `state_id`, or no marker at all, yields a replace. -/
def loadNextIndicesDispatch (index : SlotMapIndex) (refresh_mode : RefreshMode)
    (marker : Option SlotIndexMarker) : LoadStep :=
  match marker with
  | some marker =>
    if marker.generation ≠ index.generation then
      .replace
    else if marker.state_id = index.state_id then
      match refresh_mode with
      | .Never => .noMoreIndices
      | .AfterAllIndicesLoaded => .refresh
    else
      .replace
  | none => .replace

/-- `Store::load_next_indices(refresh_mode, marker)`: load the current
snapshot; if it records no loose databases yet (cold start), return
`self.consolidate_with_disk_state(index.state_id())` unconditionally (live
code); otherwise dispatch on the marker (see `loadNextIndicesDispatch`). -/
def Store.load_next_indices (self : Store) (refresh_mode : RefreshMode)
    (marker : Option SlotIndexMarker) : LoadStep :=
  let index := self.index
  if index.loose_dbs.isEmpty then
    .consolidate index.state_id
  else
    loadNextIndicesDispatch index refresh_mode marker

/-- Result of `Store::consolidate_with_disk_state(seen)`: `raceLost` is the
early return taken under the path mutex when the live fingerprint no longer
equals `seen`; `ioError e` is the alternates-resolution failure mapped into
an `ErrorKind::Other` io error and propagated; `published dbs` is a
successful consolidation whose new snapshot carries `dbs` as its ordered
loose databases. -/
inductive ConsolidateResult where
  | raceLost
  | ioError (e : IoError)
  | published (loose_dbs : List LooseStore)
deriving DecidableEq

/-- Modelled from the spec: the publication tail of
`consolidate_with_disk_state` is `todo!()` in the source; following the
spec, the ordered `db_paths` (primary objects directory first, then the
resolved alternates) become the loose databases of the new snapshot, which
is published via atomic swap. The fresh `Arc` allocation addresses of the
new snapshot and of its loose-database list are parameters. -/
def publishConsolidated (self : Store) (db_paths : List Path)
    (fresh_self_ptr fresh_loose_dbs_ptr : Nat) : Store :=
  { self with index :=
    { self.index with
      loose_dbs := db_paths.map LooseStore.mk
      self_ptr := fresh_self_ptr
      loose_dbs_ptr := fresh_loose_dbs_ptr } }

/-- `Store::consolidate_with_disk_state(seen)`: under the path mutex,
re-check `seen` against the live fingerprint (live code); when another
thread already advanced it, abort with the store unchanged and no error
(the early-return body is modelled from the spec, its source being
`return todo!()`); otherwise resolve the alternates chain through the
external collaborator `resolve`, mapping a failure into an
`ErrorKind::Other` io error propagated by `?` (live code), insert the
objects directory at position 0 of the resolved paths (live code), and
publish the new snapshot (modelled from the spec, see
`publishConsolidated`). Returns the result together with the store state
after the call. -/
def Store.consolidate_with_disk_state
    (resolve : Path → Except String (List Path))
    (fresh_self_ptr fresh_loose_dbs_ptr : Nat)
    (self : Store) (seen : Nat) : ConsolidateResult × Store :=
  let objects_directory := self.path
  if seen ≠ self.index.state_id then
    (.raceLost, self)
  else
    match resolve objects_directory with
    | .error err => (.ioError { kind := .Other, msg := err }, self)
    | .ok alternates =>
      let db_paths := objects_directory :: alternates
      (.published (db_paths.map LooseStore.mk),
       publishConsolidated self db_paths fresh_self_ptr fresh_loose_dbs_ptr)

/-- The two handle kinds of the accounting protocol: a stable handle keeps
previously returned pack ids valid, an unstable one accepts invalidation. -/
inductive HandleKind where
  | stable
  | unstable
deriving DecidableEq

/-- Modelled from the spec: handle registration and destruction are not
implemented in the source (`Store::to_handle` only clones the shared store
reference, `Handle` derives `Clone` field-wise and has no `Drop` impl);
per the spec lifecycle, creating a handle (`to_handle` or `Handle::clone`)
increments the counter of its kind and dropping it decrements the same
counter. -/
inductive HandleEvent where
  | create (kind : HandleKind)
  | drop (kind : HandleKind)
deriving DecidableEq

/-- The accounting state: the two `Store` counters (as integers, so that
going negative is expressible) together with the number of currently-live
handles of each kind. -/
structure HandleAccounting where
  live_stable : Nat
  live_unstable : Nat
  num_handles_stable : Int
  num_handles_unstable : Int
deriving DecidableEq

/-- The accounting state of a freshly constructed store: no handles. -/
def HandleAccounting.init : HandleAccounting :=
  { live_stable := 0
    live_unstable := 0
    num_handles_stable := 0
    num_handles_unstable := 0 }

/-- One lifecycle event applied to the accounting state. -/
def HandleAccounting.step (s : HandleAccounting) : HandleEvent → HandleAccounting
  | .create .stable =>
    { s with live_stable := s.live_stable + 1
             num_handles_stable := s.num_handles_stable + 1 }
  | .create .unstable =>
    { s with live_unstable := s.live_unstable + 1
             num_handles_unstable := s.num_handles_unstable + 1 }
  | .drop .stable =>
    { s with live_stable := s.live_stable - 1
             num_handles_stable := s.num_handles_stable - 1 }
  | .drop .unstable =>
    { s with live_unstable := s.live_unstable - 1
             num_handles_unstable := s.num_handles_unstable - 1 }

/-- A drop event is only possible for a currently-live handle of its kind. -/
def HandleAccounting.canStep (s : HandleAccounting) : HandleEvent → Bool
  | .create _ => true
  | .drop .stable => 0 < s.live_stable
  | .drop .unstable => 0 < s.live_unstable

/-- Apply a sequence of lifecycle events. -/
def HandleAccounting.run (s : HandleAccounting) : List HandleEvent → HandleAccounting
  | [] => s
  | e :: es => (s.step e).run es

/-- An event sequence is valid when every drop acts on a live handle. -/
def HandleAccounting.validRun (s : HandleAccounting) : List HandleEvent → Bool
  | [] => true
  | e :: es => s.canStep e && (s.step e).validRun es

/-- The accounting invariant: each counter equals the number of
currently-live handles of its kind. -/
def HandleAccounting.ok (s : HandleAccounting) : Prop :=
  s.num_handles_stable = (s.live_stable : Int) ∧
  s.num_handles_unstable = (s.live_unstable : Int)

/-- The 8-bit store of an abstract generation count: `generation` is a
`u8` field in both `SlotMapIndex` and `SlotIndexMarker`, so an abstract
monotonically increasing count is held modulo 256. -/
def genU8 (count : Nat) : Nat := count % 256

/-- Helper: a valid event sequence preserves the accounting invariant. -/
theorem HandleAccounting.run_ok (es : List HandleEvent) (s : HandleAccounting)
    (hok : s.ok) (hv : s.validRun es = true) : (s.run es).ok := by
  induction es generalizing s with
  | nil => exact hok
  | cons e es ih =>
    simp only [HandleAccounting.validRun, Bool.and_eq_true] at hv
    refine ih (s.step e) ?_ hv.2
    have hc := hv.1
    obtain ⟨h1, h2⟩ := hok
    cases e with
    | create k =>
      cases k <;> simp only [HandleAccounting.step, HandleAccounting.ok] <;> omega
    | drop k =>
      cases k <;>
        simp only [HandleAccounting.canStep, decide_eq_true_eq] at hc <;>
        simp only [HandleAccounting.step, HandleAccounting.ok] <;> omega

/-- Claim C1: for every store whose snapshot already records at least one
loose database, `load_next_indices` dispatches on the marker as follows: a
marker of a different generation yields a replace; matching generation and
matching `state_id` yields no-more-indices under `RefreshMode::Never` and a
fresh directory re-scan under `RefreshMode::AfterAllIndicesLoaded`;
matching generation with a differing `state_id` yields a replace; and a
missing marker yields a replace. -/
theorem load_next_indices_marker_dispatch (s : Store) (m : SlotIndexMarker)
    (rm : RefreshMode) (h : s.index.loose_dbs ≠ []) :
    (m.generation ≠ s.index.generation →
        s.load_next_indices rm (some m) = .replace) ∧
    (m.generation = s.index.generation → m.state_id = s.index.state_id →
        s.load_next_indices .Never (some m) = .noMoreIndices ∧
        s.load_next_indices .AfterAllIndicesLoaded (some m) = .refresh) ∧
    (m.generation = s.index.generation → m.state_id ≠ s.index.state_id →
        s.load_next_indices rm (some m) = .replace) ∧
    s.load_next_indices rm none = .replace := by
  have hne : s.index.loose_dbs.isEmpty = false := by
    cases hdb : s.index.loose_dbs with
    | nil => exact absurd hdb h
    | cons a l => rfl
  refine ⟨?_, ?_, ?_, ?_⟩
  · intro hg
    simp [Store.load_next_indices, hne, loadNextIndicesDispatch, hg]
  · intro hg hid
    constructor <;>
      simp [Store.load_next_indices, hne, loadNextIndicesDispatch, hg, hid]
  · intro hg hid
    simp [Store.load_next_indices, hne, loadNextIndicesDispatch, hg, hid]
  · simp [Store.load_next_indices, hne, loadNextIndicesDispatch]

/-- Witness for the claim C1 theorem at a concrete store and marker. -/
theorem load_next_indices_marker_dispatch_witness :
    Store.load_next_indices (Store.mk "o" ⟨[], 0, 0, 0, [⟨"o"⟩], 8, 16⟩ 0 0)
      .Never (some (SlotIndexMarker.mk 1 24)) = .replace :=
  (load_next_indices_marker_dispatch _ (SlotIndexMarker.mk 1 24) .Never
    (by simp)).1 (by decide)

/-- Claim C2 counterexample: two observations of one snapshot instance
(equal allocation addresses, equal generation, equal and unchanged loose
databases) whose shared loaded-indices counter strictly increased, yet
whose `state_id` fingerprints coincide: with the address xor equal to
`2 ^ 63`, the wrapping `usize` multiplication collapses `1 * 2 ^ 63` and
`3 * 2 ^ 63` modulo `2 ^ 64`. -/
theorem state_id_progress_collision :
    (SlotMapIndex.mk [] 0 0 0 [] (2 ^ 63 + 8) 8).self_ptr =
      (SlotMapIndex.mk [] 0 2 2 [] (2 ^ 63 + 8) 8).self_ptr ∧
    (SlotMapIndex.mk [] 0 0 0 [] (2 ^ 63 + 8) 8).loose_dbs_ptr =
      (SlotMapIndex.mk [] 0 2 2 [] (2 ^ 63 + 8) 8).loose_dbs_ptr ∧
    (SlotMapIndex.mk [] 0 0 0 [] (2 ^ 63 + 8) 8).loose_dbs =
      (SlotMapIndex.mk [] 0 2 2 [] (2 ^ 63 + 8) 8).loose_dbs ∧
    (SlotMapIndex.mk [] 0 0 0 [] (2 ^ 63 + 8) 8).generation =
      (SlotMapIndex.mk [] 0 2 2 [] (2 ^ 63 + 8) 8).generation ∧
    (SlotMapIndex.mk [] 0 0 0 [] (2 ^ 63 + 8) 8).loaded_indices <
      (SlotMapIndex.mk [] 0 2 2 [] (2 ^ 63 + 8) 8).loaded_indices ∧
    (SlotMapIndex.mk [] 0 0 0 [] (2 ^ 63 + 8) 8).state_id =
      (SlotMapIndex.mk [] 0 2 2 [] (2 ^ 63 + 8) 8).state_id :=
  ⟨rfl, rfl, rfl, rfl, by decide, by decide⟩

/-- Claim C2 as amended: the `state_id` fingerprint changes whenever the
shared loaded-indices counter strictly increases on an unchanged snapshot
instance, provided the wrapping multiplication does not collapse the two
values, that is provided `2 ^ 64` does not divide the product of the
address xor with the counter increase. -/
theorem state_id_changes_on_progress (s1 s2 : SlotMapIndex)
    (hself : s1.self_ptr = s2.self_ptr)
    (hlptr : s1.loose_dbs_ptr = s2.loose_dbs_ptr)
    (hlt : s1.loaded_indices < s2.loaded_indices)
    (hnd : ¬ USIZE ∣ (s1.loose_dbs_ptr ^^^ s1.self_ptr) *
        (s2.loaded_indices - s1.loaded_indices)) :
    s1.state_id ≠ s2.state_id := by
  intro h
  apply hnd
  have hmod : Nat.ModEq USIZE
      ((s1.loose_dbs_ptr ^^^ s1.self_ptr) * (s1.loaded_indices + 1))
      ((s1.loose_dbs_ptr ^^^ s1.self_ptr) * (s2.loaded_indices + 1)) := by
    unfold SlotMapIndex.state_id at h
    rw [← hself, ← hlptr] at h
    exact h
  have hz := hmod.dvd
  have hcast :
      (((s1.loose_dbs_ptr ^^^ s1.self_ptr) *
          (s2.loaded_indices - s1.loaded_indices) : Nat) : Int) =
        (((s1.loose_dbs_ptr ^^^ s1.self_ptr) *
            (s2.loaded_indices + 1) : Nat) : Int) -
          (((s1.loose_dbs_ptr ^^^ s1.self_ptr) *
              (s1.loaded_indices + 1) : Nat) : Int) := by
    push_cast [Nat.cast_sub hlt.le]
    ring
  have hzn : (USIZE : Int) ∣
      (((s1.loose_dbs_ptr ^^^ s1.self_ptr) *
          (s2.loaded_indices - s1.loaded_indices) : Nat) : Int) := by
    rw [hcast]
    exact hz
  exact_mod_cast hzn

/-- Witness for the amended claim C2 theorem at two concrete observations
whose address xor is 24 and whose counter increase is 1. -/
theorem state_id_changes_on_progress_witness :
    (SlotMapIndex.mk [] 0 0 0 [] 8 16).state_id ≠
      (SlotMapIndex.mk [] 0 1 1 [] 8 16).state_id :=
  state_id_changes_on_progress _ _ rfl rfl (by decide) (by decide)

/-- Claim C3: over every valid sequence of handle creations and drops
(each drop acting on a live handle), starting from a fresh store, each of
the two counters equals the number of currently-live handles of its kind
and never goes negative. -/
theorem handle_counters_track_live (es : List HandleEvent)
    (hv : HandleAccounting.init.validRun es = true) :
    (HandleAccounting.init.run es).num_handles_stable =
      ((HandleAccounting.init.run es).live_stable : Int) ∧
    (HandleAccounting.init.run es).num_handles_unstable =
      ((HandleAccounting.init.run es).live_unstable : Int) ∧
    0 ≤ (HandleAccounting.init.run es).num_handles_stable ∧
    0 ≤ (HandleAccounting.init.run es).num_handles_unstable := by
  obtain ⟨h1, h2⟩ :=
    HandleAccounting.run_ok es HandleAccounting.init ⟨rfl, rfl⟩ hv
  exact ⟨h1, h2, by omega, by omega⟩

/-- Witness for the claim C3 theorem on a concrete event sequence. -/
theorem handle_counters_track_live_witness :
    (HandleAccounting.init.run
        [.create .stable, .create .unstable, .drop .stable]).num_handles_stable =
      ((HandleAccounting.init.run
        [.create .stable, .create .unstable, .drop .stable]).live_stable : Int) ∧
    (HandleAccounting.init.run
        [.create .stable, .create .unstable, .drop .stable]).num_handles_unstable =
      ((HandleAccounting.init.run
        [.create .stable, .create .unstable, .drop .stable]).live_unstable : Int) ∧
    0 ≤ (HandleAccounting.init.run
        [.create .stable, .create .unstable, .drop .stable]).num_handles_stable ∧
    0 ≤ (HandleAccounting.init.run
        [.create .stable, .create .unstable, .drop .stable]).num_handles_unstable :=
  handle_counters_track_live
    [.create .stable, .create .unstable, .drop .stable] (by decide)

/-- Claim C4: for every store whose snapshot records no loose databases
(cold start), `load_next_indices` unconditionally tail-calls
`consolidate_with_disk_state` with the current fingerprint, regardless of
the refresh mode and of the supplied marker. -/
theorem load_next_indices_cold_start (s : Store) (rm : RefreshMode)
    (marker : Option SlotIndexMarker) (h : s.index.loose_dbs = []) :
    s.load_next_indices rm marker = .consolidate s.index.state_id := by
  simp [Store.load_next_indices, h]

/-- Witness for the claim C4 theorem at a concrete cold-start store. -/
theorem load_next_indices_cold_start_witness :
    Store.load_next_indices (Store.mk "o" ⟨[], 0, 0, 0, [], 8, 16⟩ 0 0)
      .Never (some (SlotIndexMarker.mk 0 0)) =
      .consolidate (SlotMapIndex.state_id ⟨[], 0, 0, 0, [], 8, 16⟩) :=
  load_next_indices_cold_start _ _ _ rfl

/-- Claim C5: when the live fingerprint no longer equals `seen`,
`consolidate_with_disk_state` aborts: it returns the race-lost outcome,
which is not an error, and leaves the store state unchanged. -/
theorem consolidate_race_lost_aborts
    (resolve : Path → Except String (List Path)) (p q : Nat) (s : Store)
    (seen : Nat) (h : seen ≠ s.index.state_id) :
    s.consolidate_with_disk_state resolve p q seen = (.raceLost, s) := by
  simp [Store.consolidate_with_disk_state, h]

/-- Witness for the claim C5 theorem at a concrete store and stale seen. -/
theorem consolidate_race_lost_aborts_witness :
    Store.consolidate_with_disk_state (fun _ => .ok []) 1 2
        (Store.mk "o" ⟨[], 0, 0, 0, [⟨"o"⟩], 8, 16⟩ 0 0) 0 =
      (.raceLost, Store.mk "o" ⟨[], 0, 0, 0, [⟨"o"⟩], 8, 16⟩ 0 0) :=
  consolidate_race_lost_aborts _ 1 2 _ 0 (by decide)

/-- Claim C6: when resolving the alternates chain fails,
`consolidate_with_disk_state` returns the failure as an io error of kind
`Other`, leaving the store unchanged; it neither publishes a shorter
loose-database list nor reports a not-found outcome. -/
theorem consolidate_alternates_failure_surfaces_io_error
    (resolve : Path → Except String (List Path)) (p q : Nat) (s : Store)
    (err : String) (hres : resolve s.path = .error err) :
    s.consolidate_with_disk_state resolve p q s.index.state_id =
      (.ioError { kind := .Other, msg := err }, s) := by
  simp [Store.consolidate_with_disk_state, hres]

/-- Witness for the claim C6 theorem with a failing alternates resolver. -/
theorem consolidate_alternates_failure_surfaces_io_error_witness :
    Store.consolidate_with_disk_state (fun _ => .error "missing") 1 2
        (Store.mk "o" ⟨[], 0, 0, 0, [⟨"o"⟩], 8, 16⟩ 0 0)
        (SlotMapIndex.state_id ⟨[], 0, 0, 0, [⟨"o"⟩], 8, 16⟩) =
      (.ioError { kind := .Other, msg := "missing" },
       Store.mk "o" ⟨[], 0, 0, 0, [⟨"o"⟩], 8, 16⟩ 0 0) :=
  consolidate_alternates_failure_surfaces_io_error _ 1 2 _ "missing" rfl

/-- Claim C7: `Store::at` fails for every path that is not a directory and,
for every directory, succeeds with a store whose snapshot is the default
slot map index: empty slot indices, generation 0, no loose databases; the
model takes no filesystem input beyond the directory check. -/
theorem store_at_checks_directory (objects_dir : Path) (p q : Nat) :
    Store.at false objects_dir p q =
      .error { kind := .Other, msg := objects_dir ++ " was not a directory" } ∧
    Store.at true objects_dir p q =
      .ok { path := objects_dir
            index := SlotMapIndex.mkDefault p q
            num_handles_stable := 0
            num_handles_unstable := 0 } ∧
    (SlotMapIndex.mkDefault p q).slot_indices = [] ∧
    (SlotMapIndex.mkDefault p q).generation = 0 ∧
    (SlotMapIndex.mkDefault p q).loose_dbs = [] :=
  ⟨rfl, rfl, rfl, rfl, rfl⟩

/-- Claim C8: a successful consolidation publishes the objects directory
first: the published loose databases are the primary directory followed by
the resolved alternates in order, both in the returned outcome and in the
new snapshot of the store. -/
theorem consolidate_publishes_primary_first
    (resolve : Path → Except String (List Path)) (p q : Nat) (s : Store)
    (alternates : List Path) (hres : resolve s.path = .ok alternates) :
    (s.consolidate_with_disk_state resolve p q s.index.state_id).1 =
      .published (LooseStore.mk s.path :: alternates.map LooseStore.mk) ∧
    (s.consolidate_with_disk_state resolve p q
        s.index.state_id).2.index.loose_dbs =
      LooseStore.mk s.path :: alternates.map LooseStore.mk := by
  constructor <;>
    simp [Store.consolidate_with_disk_state, hres, publishConsolidated]

/-- Witness for the claim C8 theorem with one resolved alternate. -/
theorem consolidate_publishes_primary_first_witness :
    (Store.consolidate_with_disk_state (fun _ => .ok ["alt"]) 1 2
        (Store.mk "o" ⟨[], 0, 0, 0, [⟨"o"⟩], 8, 16⟩ 0 0)
        (SlotMapIndex.state_id ⟨[], 0, 0, 0, [⟨"o"⟩], 8, 16⟩)).1 =
      .published (LooseStore.mk "o" :: List.map LooseStore.mk ["alt"]) ∧
    (Store.consolidate_with_disk_state (fun _ => .ok ["alt"]) 1 2
        (Store.mk "o" ⟨[], 0, 0, 0, [⟨"o"⟩], 8, 16⟩ 0 0)
        (SlotMapIndex.state_id ⟨[], 0, 0, 0, [⟨"o"⟩], 8, 16⟩)).2.index.loose_dbs =
      LooseStore.mk "o" :: List.map LooseStore.mk ["alt"] :=
  consolidate_publishes_primary_first _ 1 2 _ ["alt"] rfl

/-- Claim C9: on the `Single` variant, `IndexLookup::lookup` succeeds
exactly when the pack index itself finds the object id; on a hit the result
carries the pack id made of this slot id with no multipack index, the
position reported by the pack index, and the untouched (possibly empty)
pack-data slot, so the operation never loads pack data. -/
theorem index_lookup_single (l : IndexLookup) (index : PackIndexFile)
    (data : Option PackDataFile) (h : l.file = .Single index data)
    (oid : Oid) :
    (∀ pos, index.lookup oid = some pos →
        l.lookup oid =
          .found { pack_id := { index := l.id, multipack_index := none }
                   object_index_in_pack := pos } data) ∧
    (index.lookup oid = none → l.lookup oid = .notFound) := by
  constructor
  · intro pos hpos
    simp [IndexLookup.lookup, h, hpos]
  · intro hnone
    simp [IndexLookup.lookup, h, hnone]

/-- Witness for the claim C9 theorem on a two-entry in-memory index. -/
theorem index_lookup_single_witness :
    (IndexLookup.mk
        (.Single ⟨fun o => if o = 5 then some 7 else none⟩ none) 3).lookup 5 =
      .found { pack_id := { index := 3, multipack_index := none }
               object_index_in_pack := 7 } none ∧
    (IndexLookup.mk
        (.Single ⟨fun o => if o = 5 then some 7 else none⟩ none) 3).lookup 9 =
      .notFound :=
  ⟨(index_lookup_single _ _ _ rfl 5).1 7 (by simp),
   (index_lookup_single _ _ _ rfl 9).2 (by simp)⟩

/-- Claim C10: the generation tag is an 8-bit value, so abstract generation
counts that differ by a multiple of 256 are stored as equal `generation`
fields; consequently a marker that is 256 generations old compares as
current and, with a matching fingerprint, is answered with
no-more-indices under `RefreshMode::Never`. -/
theorem generation_u8_wraps (c k : Nat) (s : Store) (m : SlotIndexMarker)
    (hs : s.index.generation = genU8 c)
    (hm : m.generation = genU8 (c + 256 * k))
    (hdb : s.index.loose_dbs ≠ [])
    (hid : m.state_id = s.index.state_id) :
    m.generation = s.index.generation ∧
    s.load_next_indices .Never (some m) = .noMoreIndices := by
  have hgen : m.generation = s.index.generation := by
    rw [hs, hm]
    unfold genU8
    omega
  refine ⟨hgen, ?_⟩
  have hne : s.index.loose_dbs.isEmpty = false := by
    cases hdb2 : s.index.loose_dbs with
    | nil => exact absurd hdb2 hdb
    | cons a l => rfl
  simp [Store.load_next_indices, hne, loadNextIndicesDispatch, hgen, hid]

/-- Witness for the claim C10 theorem: a marker taken 256 generations ago
compares as current against a generation-0 snapshot. -/
theorem generation_u8_wraps_witness :
    (SlotIndexMarker.mk 0 24).generation =
      (Store.mk "o" ⟨[], 0, 0, 0, [⟨"o"⟩], 8, 16⟩ 0 0).index.generation ∧
    Store.load_next_indices (Store.mk "o" ⟨[], 0, 0, 0, [⟨"o"⟩], 8, 16⟩ 0 0)
      .Never (some (SlotIndexMarker.mk 0 24)) = .noMoreIndices :=
  generation_u8_wraps 0 1 _ _ rfl rfl (by simp) (by decide)

end GitOdb
